import Mathlib

/-!
Verification of the rec-mind asynchronous processing pipeline (src/llm/app):
the article-ingest consumer (mq_consumer.py), the query-search consumer with
its circuit breaker (query_search_consumer.py), the chunking service
(chunking.py), the batch embedding service (embeddings.py), the retry policy
(vectordb.py) and the message models (models.py).

External collaborators (splitter, embedder, vector store, chunk store) are
black boxes per the spec; they are modelled as oracle functions supplied in an
environment record. UUIDs are modelled as natural numbers, timestamps as
integers (seconds), embedding vectors as lists of integers (the float values
are pass-through data for every property considered here), similarity scores
as rationals.
-/

/-- Exceptions raised by collaborators, abstracted by class. -/
inductive Err where
  | dbDown
  | rateLimit
  | timeout
  | connReset
  | validation
  | notFound
  | other
deriving DecidableEq, Repr

/-- Decidable equality of call outcomes, by cases on the two constructors. -/
instance [DecidableEq ε] [DecidableEq α] : DecidableEq (Except ε α)
  | .error e1, .error e2 =>
    if h : e1 = e2 then .isTrue (by rw [h])
    else .isFalse (by intro hc; cases hc; exact h rfl)
  | .error _, .ok _ => .isFalse (by intro hc; cases hc)
  | .ok _, .error _ => .isFalse (by intro hc; cases hc)
  | .ok x, .ok y =>
    if h : x = y then .isTrue (by rw [h])
    else .isFalse (by intro hc; cases hc; exact h rfl)

/-- Python str.strip(): drop whitespace from both ends (modelled on the
character list underlying the string). -/
def py_strip (s : String) : String :=
  ⟨((s.data.dropWhile Char.isWhitespace).reverse.dropWhile Char.isWhitespace).reverse⟩

/-- Python s[:n]: the first n characters of a string. -/
def py_slice (s : String) (n : Nat) : String :=
  ⟨s.data.take n⟩

/-- Embedding vectors: float values are pass-through data here. -/
abbrev EmbVec := List Int

/-- models.py ArticleProcessingRequest: article_id UUID, title, content,
category, created_at. -/
structure ArticleProcessingRequest where
  article_id : Nat
  title : String
  content : String
  category : String
  created_at : Int
deriving DecidableEq

/-- models.py ChunkResponse: a chunk of an article with metadata. -/
structure ChunkResponse where
  article_id : Nat
  chunk_index : Nat
  content : String
  token_count : Nat
  character_count : Nat
  pinecone_id : Option Nat := none
deriving DecidableEq

/-- chunking.py ChunkingService.split_article: split the content with the
(black-box) splitter, then build one ChunkResponse per segment with
chunk_index = enumeration position, token_count = length // 4,
character_count = length. -/
def split_article (split : String → List String) (req : ArticleProcessingRequest) :
    List ChunkResponse :=
  (split req.content).enum.map (fun p =>
    { article_id := req.article_id
      chunk_index := p.1
      content := p.2
      token_count := p.2.length / 4
      character_count := p.2.length })

/-- query_search_consumer.py QuerySearchConsumer circuit-breaker state:
failure_count and circuit_open_time (None while closed). -/
structure CBState where
  failure_count : Nat
  circuit_open_time : Option Int
deriving DecidableEq

/-- query_search_consumer.py: self.max_failures = 5. -/
def max_failures : Nat := 5

/-- query_search_consumer.py: self.circuit_timeout = 60 seconds. -/
def circuit_timeout : Int := 60

/-- query_search_consumer.py __init__: failure_count = 0, circuit_open_time = None. -/
def cb_initial : CBState := { failure_count := 0, circuit_open_time := none }

/-- query_search_consumer.py is_circuit_open: closed if circuit_open_time is
None; if the cooldown has elapsed (now - open_time > circuit_timeout) reset
both fields and report closed; otherwise report open.  Returns the reported
Bool together with the (possibly reset) state. -/
def is_circuit_open (now : Int) (s : CBState) : Bool × CBState :=
  match s.circuit_open_time with
  | none => (false, s)
  | some t =>
    if now - t > circuit_timeout then
      (false, { failure_count := 0, circuit_open_time := none })
    else
      (true, s)

/-- query_search_consumer.py record_success: reset failure_count to 0 when it
is positive; circuit_open_time is not touched. -/
def record_success (s : CBState) : CBState :=
  if s.failure_count > 0 then { s with failure_count := 0 } else s

/-- query_search_consumer.py record_failure: increment failure_count; open the
circuit (stamp now) only when the count reaches max_failures while
circuit_open_time is still None. -/
def record_failure (now : Int) (s : CBState) : CBState :=
  let fc := s.failure_count + 1
  if fc ≥ max_failures ∧ s.circuit_open_time = none then
    { failure_count := fc, circuit_open_time := some now }
  else
    { failure_count := fc, circuit_open_time := s.circuit_open_time }

/-- A sequence of consecutive recorded failures at the given timestamps. -/
def record_failures (ts : List Int) (s : CBState) : CBState :=
  ts.foldl (fun s t => record_failure t s) s

/-- Sequential effectful map: a Python for-loop over the list that raises the
first exception encountered (used for the pydantic constructions and the
embedding loops, which all short-circuit on the first raised error). -/
def mapE (f : α → Except Err β) : List α → Except Err (List β)
  | [] => .ok []
  | x :: xs =>
    match f x with
    | .error e => .error e
    | .ok y =>
      match mapE f xs with
      | .error e => .error e
      | .ok ys => .ok (y :: ys)

/-- models.py EmbeddingRequest: article_id plus text constrained to
min_length 1, max_length 50000, and a validator that strips the text and
rejects whitespace-only input. -/
structure EmbeddingRequest where
  article_id : Nat
  text : String
deriving DecidableEq

/-- models.py EmbeddingRequest construction: pydantic enforces
1 ≤ len(text) ≤ 50000, then validate_text strips the text and raises if the
stripped text is empty. -/
def make_embedding_request (aid : Nat) (text : String) : Except Err EmbeddingRequest :=
  if text.length < 1 ∨ text.length > 50000 then .error .validation
  else if py_strip text = "" then .error .validation
  else .ok { article_id := aid, text := py_strip text }

/-- models.py BatchEmbeddingRequest construction: pydantic enforces
min_items 1 and max_items 100 on the items list. -/
def make_batch_embedding_request (items : List EmbeddingRequest) :
    Except Err (List EmbeddingRequest) :=
  if items.length < 1 ∨ items.length > 100 then .error .validation
  else .ok items

/-- config.py Settings.batch_size default. -/
def batch_size : Nat := 100

/-- mq_consumer.py: embedding text for a chunk is title + two newlines +
chunk content (title supplies context, it is never its own chunk). -/
def embedding_text (req : ArticleProcessingRequest) (c : ChunkResponse) : String :=
  req.title ++ "\n\n" ++ c.content

/-- Slice a list into consecutive batches of size k+1, with explicit fuel for
structural recursion; the fuel never runs out when it starts at the list
length. -/
def batchesOfAux (k : Nat) : Nat → List α → List (List α)
  | _, [] => []
  | 0, _ => []
  | fuel + 1, x :: xs => (x :: xs).take (k + 1) :: batchesOfAux k fuel (xs.drop k)

/-- Slice a list into consecutive batches of size k+1 (Python
range(0, len(items), batch_size) slicing, total when the step is positive). -/
def batchesOf (k : Nat) (l : List α) : List (List α) :=
  batchesOfAux k l.length l

/-- embeddings.py EmbeddingsService.generate_batch_embeddings: process the
items in slices of batch_size; each slice goes to the black-box
embed_documents call, here modelled item-wise (the spec: embedBatch fails
fast on the first failing item); any slice failure is re-raised and aborts
the whole request, otherwise the per-item vectors are returned in order. -/
def generate_batch_embeddings (embedItem : String → Except Err EmbVec)
    (texts : List String) : Except Err (List EmbVec) :=
  match mapE (fun b => mapE embedItem b) (batchesOf (batch_size - 1) texts) with
  | .error e => .error e
  | .ok out => .ok out.flatten

/-- mq_consumer.py: metadata payload attached to each Pinecone vector. -/
structure UploadMeta where
  chunk_id : Nat
  chunk_index : Nat
  article_title : String
  category : String
  token_count : Nat
  character_count : Nat
  created_at : Int
  content_preview : String
deriving DecidableEq

/-- mq_consumer.py: the metadata dict built for one (chunk, chunk_id) pair;
content_preview truncates the content to 100 characters plus an ellipsis. -/
def chunk_metadata (req : ArticleProcessingRequest) (c : ChunkResponse) (cid : Nat) :
    UploadMeta :=
  { chunk_id := cid
    chunk_index := c.chunk_index
    article_title := req.title
    category := req.category
    token_count := c.token_count
    character_count := c.character_count
    created_at := req.created_at
    content_preview :=
      if c.content.length > 100 then py_slice c.content 100 ++ "..." else c.content }

/-- One upsert received by the VectorStore: key (the vector id), vector and
metadata. -/
structure UpsertRecord where
  key : Nat
  values : EmbVec
  metadata : UploadMeta
deriving DecidableEq

/-- The external collaborators of the article-ingest consumer, as oracles.
split and store_chunks are the Splitter and ChunkStore.insertAll capabilities;
embedItem is the per-item Embedder; update_chunk is
DatabaseService.update_chunk_pinecone_id; fresh is the uuid4 stream used by
the fallback path (fresh k is the k-th uuid4 draw of this run). -/
structure IngestEnv where
  split : String → List String
  store_chunks : List ChunkResponse → Except Err (List Nat)
  embedItem : String → Except Err EmbVec
  /-- Modelled from the spec: VectorStore.upsert(id, vector, metadata) →
  upsertedCount.  The vector_id-accepting variant of
  VectorDBService.upload_embedding that every call site uses
  (mq_consumer.py line 140, main.py line 352, routers/articles.py line 79
  all pass vector_id=) is missing from src/, whose vectordb.py retains an
  older signature without it; spec section 4.1 step 5 and section 6 give its
  contract: upsert keyed by the passed id. -/
  upload : Nat → EmbVec → UploadMeta → Except Err Nat
  update_chunk : Nat → Nat → Except Err Bool
  fresh : Nat → Nat

/-- Observable outcome of processing one article message: the handler result
(ok = message acknowledged, error = message rejected), the upserts the
VectorStore received, and the attempted ChunkStore back-writes
(chunk_id, pinecone_id, whether the update call succeeded). -/
structure IngestOutcome where
  result : Except Err Unit
  upserts : List UpsertRecord
  chunk_updates : List (Nat × Nat × Bool)

/-- mq_consumer.py lines 117-150, the step-5 loop over
zip(chunks, embedding results, chunk_ids): upsert each vector keyed by the
chunk id (pinecone_vector_id = str(chunk_id)); then attempt
update_chunk_pinecone_id, whose failure is caught and logged only; an upsert
failure propagates out of the loop (after retries) and rejects the message. -/
def upload_loop (env : IngestEnv) (req : ArticleProcessingRequest) :
    List (ChunkResponse × EmbVec × Nat) → IngestOutcome
  | [] => { result := .ok (), upserts := [], chunk_updates := [] }
  | (c, v, cid) :: rest =>
    match env.upload cid v (chunk_metadata req c cid) with
    | .error e => { result := .error e, upserts := [], chunk_updates := [] }
    | .ok _ =>
      let updated := (env.update_chunk cid cid).isOk
      let out := upload_loop env req rest
      { result := out.result
        upserts := { key := cid, values := v, metadata := chunk_metadata req c cid } :: out.upserts
        chunk_updates := (cid, cid, updated) :: out.chunk_updates }

/-- mq_consumer.py lines 90-100: the chunk ids used downstream — the ids
returned by ChunkStore.insertAll on success, or n fresh uuid4 draws on
failure (availability-over-consistency fallback). -/
def assigned_chunk_ids (env : IngestEnv) (req : ArticleProcessingRequest) : List Nat :=
  match env.store_chunks (split_article env.split req) with
  | .ok ids => ids
  | .error _ => (List.range (split_article env.split req).length).map env.fresh

/-- mq_consumer.py ArticleProcessingConsumer.process_article_message:
chunk the article; store the chunks (falling back to fresh local ids on
failure); build the per-chunk embedding requests and the batch request
(pydantic validation); batch-embed (failure re-raised, rejecting the
message before any upsert); then run the upload loop over
zip(chunks, results, chunk_ids). -/
def process_article_message (env : IngestEnv) (req : ArticleProcessingRequest) :
    IngestOutcome :=
  let chunks := split_article env.split req
  let chunk_ids := assigned_chunk_ids env req
  match mapE (fun c => make_embedding_request c.article_id (embedding_text req c)) chunks with
  | .error e => { result := .error e, upserts := [], chunk_updates := [] }
  | .ok items =>
    match make_batch_embedding_request items with
    | .error e => { result := .error e, upserts := [], chunk_updates := [] }
    | .ok items =>
      match generate_batch_embeddings env.embedItem (items.map (fun it => it.text)) with
      | .error e => { result := .error e, upserts := [], chunk_updates := [] }
      | .ok embs => upload_loop env req (chunks.zip (embs.zip chunk_ids))

/-- Modelled from the spec: QuerySearchMessage {search_id, query, max_results,
score_threshold, service_instance_id} (spec section 3).  The model class is
imported by query_search_consumer.py but absent from the models.py under
src/. -/
structure QuerySearchMessage where
  search_id : Nat
  query : String
  max_results : Nat
  score_threshold : Rat
  service_instance_id : Option String := none
deriving DecidableEq

/-- Modelled from the spec: one ranked match returned by
VectorStore.query — id, score and a metadata payload (spec section 6); the
optional metadata fields are the ones query_search_consumer.py reads with
metadata.get defaults. -/
structure PineMeta where
  chunk_id : Option String := none
  article_id : Option Nat := none
  chunk_index : Option Nat := none
  article_title : Option String := none
  category : Option String := none
  content_preview : Option String := none
  content : Option String := none
  url : Option String := none
deriving DecidableEq

/-- Modelled from the spec: a VectorStore.query match with id, score,
metadata. -/
structure PineMatch where
  id : String
  score : Rat
  metadata : PineMeta
deriving DecidableEq

/-- Modelled from the spec: QuerySearchResult {chunk_id, similarity_score,
article_id, chunk_index, article_title, category, content_preview, url}
(spec section 3); absent from the models.py under src/. -/
structure QuerySearchResult where
  chunk_id : String
  similarity_score : Rat
  article_id : Nat
  chunk_index : Nat
  article_title : String
  category : String
  content_preview : String
  url : String
deriving DecidableEq

/-- Modelled from the spec: QuerySearchResponse {search_id, query, results,
total_found, processing_time, service_instance_id} (spec section 4.2 step 4);
absent from the models.py under src/.  processing_time is wall-clock data,
fixed to 0 in this model. -/
structure QuerySearchResponse where
  search_id : Nat
  query : String
  results : List QuerySearchResult
  total_found : Nat
  processing_time : Int := 0
  service_instance_id : String
deriving DecidableEq

/-- Modelled from the spec: QuerySearchError {search_id, query, error_message,
error_code, service_instance_id} (spec section 4.2); absent from the
models.py under src/. -/
structure QuerySearchError where
  search_id : Nat
  query : String
  error_message : String
  error_code : String
  service_instance_id : String
deriving DecidableEq

/-- A message published to the query_search_results channel: terminal success
or terminal error. -/
inductive PubMsg where
  | response (r : QuerySearchResponse)
  | failure (e : QuerySearchError)
deriving DecidableEq

/-- The search_id correlation key carried by a published terminal message. -/
def PubMsg.searchId : PubMsg → Nat
  | .response r => r.search_id
  | .failure e => e.search_id

/-- String rendering of an exception (stands in for Python str(e)). -/
def errText : Err → String
  | .dbDown => "database unavailable"
  | .rateLimit => "rate limit exceeded"
  | .timeout => "timeout"
  | .connReset => "connection reset"
  | .validation => "validation error"
  | .notFound => "not found"
  | .other => "error"

/-- External collaborators of the query-search consumer: the per-call Embedder
and the VectorStore similarity query, plus the instance id. -/
structure QueryEnv where
  embed : String → Except Err EmbVec
  /-- Modelled from the spec: VectorStore.query(vector, topK, threshold) →
  ranked matches with id/score/metadata (spec sections 4.2 and 6).  The
  method query_search_consumer.py line 195 calls
  (VectorDBService.search_similar_vectors, with no exclusion filter for
  query search) is missing from the vectordb.py under src/; only its caller
  is present. -/
  search : EmbVec → Nat → Rat → Except Err (List PineMatch)
  instance_id : String

/-- query_search_consumer.py lines 202-224: map one Pinecone match to a
QuerySearchResult, preferring the content_preview carried in the metadata and
falling back to truncating a raw content field to 200 characters; the other
fields use metadata.get defaults. -/
def map_match (msg : QuerySearchMessage) (m : PineMatch) : QuerySearchResult :=
  let preview0 := m.metadata.content_preview.getD ""
  let preview :=
    if preview0 = "" then
      let c := m.metadata.content.getD ""
      if c.length > 200 then py_slice c 200 ++ "..." else c
    else preview0
  { chunk_id := m.metadata.chunk_id.getD m.id
    similarity_score := m.score
    article_id := m.metadata.article_id.getD msg.search_id
    chunk_index := m.metadata.chunk_index.getD 0
    article_title := m.metadata.article_title.getD "Unknown"
    category := m.metadata.category.getD "Unknown"
    content_preview := preview
    url := m.metadata.url.getD "" }

/-- query_search_consumer.py publish_search_error: the QuerySearchError built
for a failed search. -/
def search_error_message (env : QueryEnv) (msg : QuerySearchMessage) (e : Err) :
    QuerySearchError :=
  { search_id := msg.search_id
    query := msg.query
    error_message := "Query search failed: " ++ errText e
    error_code := "PROCESSING_ERROR"
    service_instance_id := env.instance_id }

/-- query_search_consumer.py QuerySearchConsumer.process_query_search.
The inbound body is the parse outcome of the message (json.loads plus
QuerySearchMessage validation).  Entry checks the circuit breaker: when open,
the message is acknowledged with nothing published.  When closed: a parse
failure records a failure and publishes nothing (search_message is still
None); otherwise embed the query, run the similarity search, map the
matches, publish the response and record success; any exception records a
failure and publishes a QuerySearchError carrying the search_id.  Returns the
new breaker state and the published messages.  The handler is a total
function: every message is acknowledged. -/
def process_query_search (env : QueryEnv) (now : Int) (s : CBState)
    (body : Except Err QuerySearchMessage) : CBState × List PubMsg :=
  match is_circuit_open now s with
  | (true, s1) => (s1, [])
  | (false, s1) =>
    match body with
    | .error _ => (record_failure now s1, [])
    | .ok msg =>
      match env.embed msg.query with
      | .error e => (record_failure now s1, [.failure (search_error_message env msg e)])
      | .ok v =>
        match env.search v msg.max_results msg.score_threshold with
        | .error e => (record_failure now s1, [.failure (search_error_message env msg e)])
        | .ok ms =>
          let results := ms.map (map_match msg)
          let resp : QuerySearchResponse :=
            { search_id := msg.search_id
              query := msg.query
              results := results
              total_found := results.length
              processing_time := 0
              service_instance_id := env.instance_id }
          (record_success s1, [.response resp])

/-- tenacity retry loop: action attempt (0-based), remaining retries as fuel;
on an error, retry when the policy allows and fuel remains, otherwise
re-raise the error unchanged (reraise=True). -/
def retryAttempts (shouldRetry : Err → Bool) (action : Nat → Except Err α) :
    Nat → Nat → Except Err α
  | attempt, fuel =>
    match action attempt with
    | .ok a => .ok a
    | .error e =>
      match fuel with
      | 0 => .error e
      | fuel' + 1 =>
        if shouldRetry e then retryAttempts shouldRetry action (attempt + 1) fuel'
        else .error e

/-- config.py Settings.max_retries default. -/
def max_retries : Nat := 3

/-- vectordb.py lines 65-69 and 119-123: the decorator
retry(stop=stop_after_attempt(settings.max_retries),
wait=wait_exponential(multiplier=1, min=2, max=8), reraise=True) wrapping
upload_embedding and search_similar.  No retry= predicate is given, so
tenacity's default applies: every exception is retried. -/
def vectordb_retry_call (action : Nat → Except Err α) : Except Err α :=
  retryAttempts (fun _ => true) action 0 (max_retries - 1)

/-- embeddings.py generate_embedding / generate_batch_embeddings: the embedder
calls carry no retry decorator at all — a single attempt is made. -/
def embedder_call (action : Nat → Except Err α) : Except Err α :=
  action 0

/-- Modelled from the spec: the transient error classification of spec
section 4.3 (rate-limit, timeout, connection-reset), used only to state the
retry claim. -/
def spec_transient : Err → Bool
  | .rateLimit => true
  | .timeout => true
  | .connReset => true
  | _ => false

/-- A concrete ingest environment in which every collaborator succeeds:
the splitter yields two segments, the ChunkStore assigns ids 0..n-1,
the embedder and the vector store succeed, uuid4 draws are 1000, 1001, ... -/
def ingest_env_ok : IngestEnv :=
  { split := fun _ => ["Para1.", "Para2."]
    store_chunks := fun cs => .ok (List.range cs.length)
    embedItem := fun _ => .ok [1, 2]
    upload := fun _ _ _ => .ok 1
    update_chunk := fun _ _ => .ok true
    fresh := fun k => k + 1000 }

/-- ingest_env_ok with ChunkStore.insertAll raising. -/
def ingest_env_dbdown : IngestEnv :=
  { ingest_env_ok with store_chunks := fun _ => .error .dbDown }

/-- ingest_env_dbdown with a splitter yielding 101 segments (a long article:
chunk size 500 with overlap 50 yields over 100 segments for a 50kB body). -/
def ingest_env_101 : IngestEnv :=
  { ingest_env_dbdown with split := fun _ => List.replicate 101 "seg" }

/-- ingest_env_ok with an embedder failing on every item. -/
def ingest_env_embedfail : IngestEnv :=
  { ingest_env_ok with embedItem := fun _ => .error .rateLimit }

/-- ingest_env_ok with every ChunkStore back-write failing. -/
def ingest_env_updatefail : IngestEnv :=
  { ingest_env_ok with update_chunk := fun _ _ => .error .dbDown }

/-- A concrete article message. -/
def sample_req : ArticleProcessingRequest :=
  { article_id := 7
    title := "T"
    content := "Para1.\n\nPara2."
    category := "news"
    created_at := 0 }

/-- Chunk ids of a hypothetical prior run of the same article. -/
def prior_run_ids : List Nat := [0, 1, 2]

/-- A concrete query environment: embedding succeeds, the similarity search
returns no matches at or above the threshold. -/
def query_env_ok : QueryEnv :=
  { embed := fun _ => .ok [1]
    search := fun _ _ _ => .ok []
    instance_id := "inst-1" }

/-- A concrete Pinecone match. -/
def sample_match : PineMatch :=
  { id := "vec-9"
    score := (9 : Rat) / 10
    metadata := { chunk_id := some "chunk-9", article_title := some "T" } }

/-- query_env_ok with one match returned. -/
def query_env_one : QueryEnv :=
  { query_env_ok with search := fun _ _ _ => .ok [sample_match] }

/-- query_env_ok with the embedder failing. -/
def query_env_embedfail : QueryEnv :=
  { query_env_ok with embed := fun _ => .error .timeout }

/-- A concrete query message. -/
def sample_query : QuerySearchMessage :=
  { search_id := 42
    query := "hello"
    max_results := 5
    score_threshold := (7 : Rat) / 10 }

/-- A retried action whose only failure is a validation error on the first
attempt: attempt 0 raises a non-transient error, attempt 1 succeeds. -/
def c6_vec_action : Nat → Except Err Nat :=
  fun k => if k = 0 then .error .validation else .ok 42

/-- An embedder action that fails transiently on the first attempt and would
succeed on a second attempt. -/
def c6_embed_action : Nat → Except Err Nat :=
  fun k => if k = 0 then .error .rateLimit else .ok 7

/-! ## Circuit-breaker lemmas -/

theorem record_failure_count (now : Int) (s : CBState) :
    (record_failure now s).failure_count = s.failure_count + 1 := by
  simp only [record_failure]
  split <;> rfl

theorem record_failure_open_some (now : Int) (s : CBState) (t : Int)
    (h : s.circuit_open_time = some t) :
    (record_failure now s).circuit_open_time = some t := by
  unfold record_failure
  rw [h]
  simp

theorem record_failures_open_some (ts : List Int) :
    ∀ (s : CBState) (t : Int), s.circuit_open_time = some t →
      (record_failures ts s).circuit_open_time = some t := by
  induction ts with
  | nil => intro s t h; exact h
  | cons a ts ih =>
    intro s t h
    exact ih _ t (record_failure_open_some a s t h)

theorem record_failures_count (ts : List Int) :
    ∀ s : CBState, (record_failures ts s).failure_count = s.failure_count + ts.length := by
  induction ts with
  | nil => intro s; rfl
  | cons a ts ih =>
    intro s
    show (record_failures ts (record_failure a s)).failure_count = _
    rw [ih, record_failure_count]
    simp only [List.length_cons]
    omega

theorem record_failures_none_iff (ts : List Int) :
    ∀ k : Nat, k < max_failures →
      ((record_failures ts { failure_count := k, circuit_open_time := none }).circuit_open_time
        = none ↔ k + ts.length < max_failures) := by
  induction ts with
  | nil =>
    intro k hk
    simpa [record_failures] using hk
  | cons a ts ih =>
    intro k hk
    show ((record_failures ts (record_failure a _)).circuit_open_time = none ↔ _)
    by_cases h5 : k + 1 ≥ max_failures
    · have hopen : record_failure a { failure_count := k, circuit_open_time := none }
          = { failure_count := k + 1, circuit_open_time := some a } := by
        unfold record_failure
        simp [h5]
      rw [hopen]
      have := record_failures_open_some ts
        { failure_count := k + 1, circuit_open_time := some a } a rfl
      rw [this]
      simp only [List.length_cons]
      constructor
      · intro hc; cases hc
      · intro hc; omega
    · have hkeep : record_failure a { failure_count := k, circuit_open_time := none }
          = { failure_count := k + 1, circuit_open_time := none } := by
        unfold record_failure
        simp [h5]
      rw [hkeep, ih (k + 1) (by omega)]
      simp only [List.length_cons]
      omega

/-! ## Claim theorems: circuit breaker -/

/-- Claim C2: the QuerySearchConsumer circuit breaker, started from CLOSED
(failure_count 0, circuit_open_time None), opens exactly when consecutive
recorded failures reach the threshold of 5; while OPEN within the 60-second
cooldown every message is acknowledged (the handler is total) with nothing
published and the state untouched; once the cooldown has strictly elapsed the
next message is processed exactly as from the CLOSED initial state, and a
subsequent successful search leaves failure_count at 0. -/
theorem claimC2 :
    (∀ ts : List Int,
      ((record_failures ts cb_initial).circuit_open_time = none ↔ ts.length < max_failures)
        ∧ (record_failures ts cb_initial).failure_count = ts.length)
    ∧ (∀ (env : QueryEnv) (now : Int) (s : CBState) (t : Int)
        (body : Except Err QuerySearchMessage),
        s.circuit_open_time = some t → now - t ≤ circuit_timeout →
        process_query_search env now s body = (s, []))
    ∧ (∀ (env : QueryEnv) (now : Int) (s : CBState) (t : Int)
        (body : Except Err QuerySearchMessage),
        s.circuit_open_time = some t → now - t > circuit_timeout →
        process_query_search env now s body = process_query_search env now cb_initial body)
    ∧ (∀ (env : QueryEnv) (now : Int) (s : CBState) (t : Int)
        (msg : QuerySearchMessage) (v : EmbVec) (ms : List PineMatch),
        s.circuit_open_time = some t → now - t > circuit_timeout →
        env.embed msg.query = .ok v →
        env.search v msg.max_results msg.score_threshold = .ok ms →
        (process_query_search env now s (.ok msg)).1.failure_count = 0) := by
  refine ⟨?_, ?_, ?_, ?_⟩
  · intro ts
    constructor
    · simpa [cb_initial] using record_failures_none_iff ts 0 (by decide)
    · rw [record_failures_count]
      simp [cb_initial]
  · intro env now s t body hopen hle
    unfold process_query_search is_circuit_open
    rw [hopen]
    simp [not_lt.mpr hle]
  · intro env now s t body hopen hgt
    unfold process_query_search is_circuit_open
    rw [hopen]
    simp [hgt, cb_initial]
  · intro env now s t msg v ms hopen hgt hemb hsearch
    unfold process_query_search is_circuit_open
    rw [hopen]
    simp [hgt, hemb, hsearch, record_success]

/-- Witness for C2 at concrete inputs: five failures at times 1..5 open the
breaker; at time 50 (40 seconds after opening at 10) a message is dropped
with the state untouched; at time 80 (70 seconds after opening) the message
is processed as from the initial CLOSED state and a successful search leaves
failure_count 0. -/
theorem claimC2_witness :
    (¬ (record_failures [1, 2, 3, 4, 5] cb_initial).circuit_open_time = none)
    ∧ process_query_search query_env_ok 50
        { failure_count := 5, circuit_open_time := some 10 } (.ok sample_query)
        = ({ failure_count := 5, circuit_open_time := some 10 }, [])
    ∧ process_query_search query_env_ok 80
        { failure_count := 5, circuit_open_time := some 10 } (.ok sample_query)
        = process_query_search query_env_ok 80 cb_initial (.ok sample_query)
    ∧ (process_query_search query_env_ok 80
        { failure_count := 5, circuit_open_time := some 10 } (.ok sample_query)).1.failure_count
        = 0 := by
  refine ⟨?_, ?_, ?_, ?_⟩
  · intro h
    have := (claimC2.1 [1, 2, 3, 4, 5]).1.mp h
    simp [max_failures] at this
  · exact claimC2.2.1 query_env_ok 50 _ 10 _ rfl (by decide)
  · exact claimC2.2.2.1 query_env_ok 80 _ 10 _ rfl (by decide)
  · exact claimC2.2.2.2 query_env_ok 80 _ 10 sample_query [1] [] rfl (by decide) rfl rfl

/-- Claim C10: circuit_open_time is written exactly once per open period —
record_failure never overwrites a non-None circuit_open_time (extra failures
while open do not extend the cooldown), record_success never touches it, and
the only transition back to CLOSED is the cooldown check inside
is_circuit_open, which simultaneously clears circuit_open_time and resets
failure_count to 0 (within the cooldown it changes nothing). -/
theorem claimC10 :
    (∀ (now : Int) (s : CBState) (t : Int), s.circuit_open_time = some t →
      (record_failure now s).circuit_open_time = some t)
    ∧ (∀ s : CBState, (record_success s).circuit_open_time = s.circuit_open_time)
    ∧ (∀ (now : Int) (s : CBState) (t : Int), s.circuit_open_time = some t →
        ¬ now - t > circuit_timeout → is_circuit_open now s = (true, s))
    ∧ (∀ (now : Int) (s : CBState) (t : Int), s.circuit_open_time = some t →
        now - t > circuit_timeout →
        is_circuit_open now s = (false, { failure_count := 0, circuit_open_time := none })) := by
  refine ⟨record_failure_open_some, ?_, ?_, ?_⟩
  · intro s
    unfold record_success
    split <;> rfl
  · intro now s t h hle
    unfold is_circuit_open
    rw [h]
    simp [hle]
  · intro now s t h hgt
    unfold is_circuit_open
    rw [h]
    simp [hgt]

/-- Witness for C10 at concrete inputs: a sixth failure at time 30 does not
move the opening stamp 10; record_success keeps the stamp; at time 50 the
breaker reports open with the state unchanged; at time 80 it closes,
clearing the stamp and the count together. -/
theorem claimC10_witness :
    (record_failure 30 { failure_count := 5, circuit_open_time := some 10 }).circuit_open_time
        = some 10
    ∧ (record_success { failure_count := 5, circuit_open_time := some 10 }).circuit_open_time
        = some 10
    ∧ is_circuit_open 50 { failure_count := 5, circuit_open_time := some 10 }
        = (true, { failure_count := 5, circuit_open_time := some 10 })
    ∧ is_circuit_open 80 { failure_count := 5, circuit_open_time := some 10 }
        = (false, { failure_count := 0, circuit_open_time := none }) := by
  refine ⟨claimC10.1 30 _ 10 rfl, ?_, ?_, ?_⟩
  · rw [claimC10.2.1]
  · exact claimC10.2.2.1 50 _ 10 rfl (by decide)
  · exact claimC10.2.2.2 80 _ 10 rfl (by decide)

/-! ## Query-search handler lemmas -/

theorem process_query_search_closed (env : QueryEnv) (now : Int) (s : CBState)
    (msg : QuerySearchMessage) (h : (is_circuit_open now s).1 = false) :
    process_query_search env now s (.ok msg) =
      match env.embed msg.query with
      | .error e =>
        (record_failure now (is_circuit_open now s).2,
          [.failure (search_error_message env msg e)])
      | .ok v =>
        match env.search v msg.max_results msg.score_threshold with
        | .error e =>
          (record_failure now (is_circuit_open now s).2,
            [.failure (search_error_message env msg e)])
        | .ok ms =>
          (record_success (is_circuit_open now s).2,
            [.response
              { search_id := msg.search_id
                query := msg.query
                results := ms.map (map_match msg)
                total_found := (ms.map (map_match msg)).length
                processing_time := 0
                service_instance_id := env.instance_id }]) := by
  rcases hio : is_circuit_open now s with ⟨b, s1⟩
  have hb : b = false := by rw [hio] at h; exact h
  subst hb
  unfold process_query_search
  rw [hio]

theorem process_query_search_open (env : QueryEnv) (now : Int) (s : CBState)
    (body : Except Err QuerySearchMessage) (h : (is_circuit_open now s).1 = true) :
    process_query_search env now s body = ((is_circuit_open now s).2, []) := by
  rcases hio : is_circuit_open now s with ⟨b, s1⟩
  have hb : b = true := by rw [hio] at h; exact h
  subst hb
  unfold process_query_search
  rw [hio]

theorem pqs_success (env : QueryEnv) (now : Int) (s : CBState) (msg : QuerySearchMessage)
    (v : EmbVec) (ms : List PineMatch) (h : (is_circuit_open now s).1 = false)
    (hv : env.embed msg.query = .ok v)
    (hs : env.search v msg.max_results msg.score_threshold = .ok ms) :
    process_query_search env now s (.ok msg) =
      (record_success (is_circuit_open now s).2,
        [.response
          { search_id := msg.search_id
            query := msg.query
            results := ms.map (map_match msg)
            total_found := (ms.map (map_match msg)).length
            processing_time := 0
            service_instance_id := env.instance_id }]) := by
  rw [process_query_search_closed env now s msg h, hv]
  dsimp only
  rw [hs]

theorem pqs_embed_error (env : QueryEnv) (now : Int) (s : CBState)
    (msg : QuerySearchMessage) (e : Err) (h : (is_circuit_open now s).1 = false)
    (he : env.embed msg.query = .error e) :
    process_query_search env now s (.ok msg) =
      (record_failure now (is_circuit_open now s).2,
        [.failure (search_error_message env msg e)]) := by
  rw [process_query_search_closed env now s msg h, he]

theorem pqs_search_error (env : QueryEnv) (now : Int) (s : CBState)
    (msg : QuerySearchMessage) (v : EmbVec) (e : Err)
    (h : (is_circuit_open now s).1 = false)
    (hv : env.embed msg.query = .ok v)
    (hs : env.search v msg.max_results msg.score_threshold = .error e) :
    process_query_search env now s (.ok msg) =
      (record_failure now (is_circuit_open now s).2,
        [.failure (search_error_message env msg e)]) := by
  rw [process_query_search_closed env now s msg h, hv]
  dsimp only
  rw [hs]

/-! ## Claim theorems: query search publication -/

/-- Claim C3: when the circuit is CLOSED at entry, handling a parsed query
message publishes exactly one terminal message, always correlated by the
message's search_id: the QuerySearchResponse when the embedding and the
similarity search succeed (result mapping is a total computation), and the
QuerySearchError built from the raised exception otherwise; when the breaker
reports OPEN at entry, nothing at all is published. -/
theorem claimC3 :
    (∀ (env : QueryEnv) (now : Int) (s : CBState) (msg : QuerySearchMessage),
      (is_circuit_open now s).1 = false →
        (process_query_search env now s (.ok msg)).2.length = 1
        ∧ (∀ p ∈ (process_query_search env now s (.ok msg)).2, p.searchId = msg.search_id)
        ∧ (∀ (v : EmbVec) (ms : List PineMatch), env.embed msg.query = .ok v →
            env.search v msg.max_results msg.score_threshold = .ok ms →
            (process_query_search env now s (.ok msg)).2 =
              [.response
                { search_id := msg.search_id
                  query := msg.query
                  results := ms.map (map_match msg)
                  total_found := (ms.map (map_match msg)).length
                  processing_time := 0
                  service_instance_id := env.instance_id }])
        ∧ (∀ e : Err, env.embed msg.query = .error e →
            (process_query_search env now s (.ok msg)).2 =
              [.failure (search_error_message env msg e)])
        ∧ (∀ (v : EmbVec) (e : Err), env.embed msg.query = .ok v →
            env.search v msg.max_results msg.score_threshold = .error e →
            (process_query_search env now s (.ok msg)).2 =
              [.failure (search_error_message env msg e)])
        ∧ (∀ e : Err, (search_error_message env msg e).search_id = msg.search_id))
    ∧ (∀ (env : QueryEnv) (now : Int) (s : CBState) (body : Except Err QuerySearchMessage),
        (is_circuit_open now s).1 = true →
        (process_query_search env now s body).2 = []) := by
  constructor
  · intro env now s msg h
    rcases hemb : env.embed msg.query with e | v
    · rw [pqs_embed_error env now s msg e h hemb]
      refine ⟨rfl, ?_, ?_, ?_, ?_, fun e2 => rfl⟩
      · intro p hp
        simp only [List.mem_singleton] at hp
        subst hp
        rfl
      · intro v ms hv _
        exact Except.noConfusion hv
      · intro e2 he2
        injection he2 with he
        rw [he]
      · intro v e2 hv _
        exact Except.noConfusion hv
    · rcases hsearch : env.search v msg.max_results msg.score_threshold with e | ms
      · rw [pqs_search_error env now s msg v e h hemb hsearch]
        refine ⟨rfl, ?_, ?_, ?_, ?_, fun e2 => rfl⟩
        · intro p hp
          simp only [List.mem_singleton] at hp
          subst hp
          rfl
        · intro v2 ms hv2 hs2
          injection hv2 with hvv
          subst hvv
          exact Except.noConfusion (hs2.symm.trans hsearch)
        · intro e2 he2
          exact Except.noConfusion he2
        · intro v2 e2 hv2 hs2
          injection hv2 with hvv
          subst hvv
          injection hs2.symm.trans hsearch with he
          rw [he]
      · rw [pqs_success env now s msg v ms h hemb hsearch]
        refine ⟨rfl, ?_, ?_, ?_, ?_, fun e2 => rfl⟩
        · intro p hp
          simp only [List.mem_singleton] at hp
          subst hp
          rfl
        · intro v2 ms2 hv2 hs2
          injection hv2 with hvv
          subst hvv
          injection hs2.symm.trans hsearch with hms
          rw [hms]
        · intro e2 he2
          exact Except.noConfusion he2
        · intro v2 e2 hv2 hs2
          injection hv2 with hvv
          subst hvv
          exact Except.noConfusion (hs2.symm.trans hsearch)
  · intro env now s body h
    rw [process_query_search_open env now s body h]

/-- Witness for C3 at concrete inputs: with the breaker closed, a search with
one match publishes exactly one message and a failing embedder publishes
exactly one error message; with the breaker open (opened at 190, entry at
200), nothing is published. -/
theorem claimC3_witness :
    (process_query_search query_env_one 5 cb_initial (.ok sample_query)).2.length = 1
    ∧ (process_query_search query_env_embedfail 5 cb_initial (.ok sample_query)).2.length = 1
    ∧ (process_query_search query_env_one 200
        { failure_count := 5, circuit_open_time := some 190 } (.ok sample_query)).2 = [] := by
  refine ⟨?_, ?_, ?_⟩
  · exact (claimC3.1 query_env_one 5 cb_initial sample_query rfl).1
  · exact (claimC3.1 query_env_embedfail 5 cb_initial sample_query rfl).1
  · exact claimC3.2 query_env_one 200 _ (.ok sample_query) (by decide)

/-- Claim C8: with the circuit CLOSED, a query whose similarity search returns
no matches at or above the score threshold publishes a QuerySearchResponse
with total_found 0 and an empty results list — not an error message. -/
theorem claimC8 (env : QueryEnv) (now : Int) (s : CBState) (msg : QuerySearchMessage)
    (v : EmbVec) (h : (is_circuit_open now s).1 = false)
    (hemb : env.embed msg.query = .ok v)
    (hsearch : env.search v msg.max_results msg.score_threshold = .ok []) :
    (process_query_search env now s (.ok msg)).2 =
      [.response
        { search_id := msg.search_id
          query := msg.query
          results := []
          total_found := 0
          processing_time := 0
          service_instance_id := env.instance_id }] := by
  rw [pqs_success env now s msg v [] h hemb hsearch]
  simp

/-- Witness for C8 at concrete inputs: the environment whose search returns no
matches yields exactly one published response with total_found 0 and empty
results. -/
theorem claimC8_witness :
    (process_query_search query_env_ok 5 cb_initial (.ok sample_query)).2 =
      [.response
        { search_id := 42
          query := "hello"
          results := []
          total_found := 0
          processing_time := 0
          service_instance_id := "inst-1" }] :=
  claimC8 query_env_ok 5 cb_initial sample_query [1] rfl rfl rfl

/-! ## Claim theorem: chunking -/

/-- Claim C4: for every article request the chunking step produces exactly one
Chunk per splitter segment, and the chunk_index values are exactly 0..n-1 in
splitter output order, with no gaps and no duplicates. -/
theorem claimC4 (split : String → List String) (req : ArticleProcessingRequest) :
    (split_article split req).length = (split req.content).length
    ∧ (split_article split req).map (fun c => c.chunk_index)
        = List.range (split req.content).length := by
  constructor
  · simp [split_article]
  · simp only [split_article, List.map_map]
    exact List.enum_map_fst (split req.content)

/-! ## Sequential-map and batching lemmas -/

theorem mapE_ok_length (f : α → Except Err β) :
    ∀ {l : List α} {ys : List β}, mapE f l = .ok ys → ys.length = l.length := by
  intro l
  induction l with
  | nil =>
    intro ys h
    cases h
    rfl
  | cons x xs ih =>
    intro ys h
    unfold mapE at h
    rcases hfx : f x with e | y
    · rw [hfx] at h
      cases h
    · rw [hfx] at h
      rcases hxs : mapE f xs with e | ys2
      · rw [hxs] at h
        cases h
      · rw [hxs] at h
        cases h
        simp [ih hxs]

theorem mapE_error_of_mem (f : α → Except Err β) :
    ∀ {l : List α} {x : α} {e : Err}, x ∈ l → f x = .error e →
      ∃ e2, mapE f l = .error e2 := by
  intro l
  induction l with
  | nil =>
    intro x e hx _
    cases hx
  | cons a as ih =>
    intro x e hx hfx
    unfold mapE
    rcases hfa : f a with ea | y
    · exact ⟨ea, rfl⟩
    · rcases List.mem_cons.mp hx with hxa | hxs
      · subst hxa
        exact Except.noConfusion (hfa.symm.trans hfx)
      · obtain ⟨e2, h2⟩ := ih hxs hfx
        rw [h2]
        exact ⟨e2, rfl⟩

theorem mapE_ok_of_forall (f : α → Except Err β) :
    ∀ l : List α, (∀ x ∈ l, ∃ y, f x = .ok y) → ∃ ys, mapE f l = .ok ys := by
  intro l
  induction l with
  | nil =>
    intro _
    exact ⟨[], rfl⟩
  | cons a as ih =>
    intro h
    obtain ⟨y, hy⟩ := h a (List.mem_cons_self a as)
    obtain ⟨ys, hys⟩ := ih (fun x hx => h x (List.mem_cons_of_mem a hx))
    refine ⟨y :: ys, ?_⟩
    unfold mapE
    rw [hy, hys]

theorem batchesOfAux_flatten (k : Nat) :
    ∀ (fuel : Nat) (l : List α), l.length ≤ fuel →
      (batchesOfAux k fuel l).flatten = l := by
  intro fuel
  induction fuel with
  | zero =>
    intro l hl
    cases l with
    | nil => rfl
    | cons x xs => exact absurd hl (by simp)
  | succ fuel ih =>
    intro l hl
    cases l with
    | nil => rfl
    | cons x xs =>
      show ((x :: xs).take (k + 1) :: batchesOfAux k fuel (xs.drop k)).flatten = x :: xs
      rw [List.flatten_cons]
      rw [ih (xs.drop k) (by simp only [List.length_drop]; simp only [List.length_cons] at hl; omega)]
      have hdrop : xs.drop k = (x :: xs).drop (k + 1) := rfl
      rw [hdrop, List.take_append_drop]

theorem batchesOf_flatten (k : Nat) (l : List α) : (batchesOf k l).flatten = l :=
  batchesOfAux_flatten k l.length l le_rfl

theorem batched_mapE_ok_aux (f : α → Except Err β) (k : Nat) :
    ∀ (fuel : Nat) (l : List α), l.length ≤ fuel →
      (∀ x ∈ l, ∃ y, f x = .ok y) →
      ∃ out, mapE (fun b => mapE f b) (batchesOfAux k fuel l) = .ok out
        ∧ out.flatten.length = l.length := by
  intro fuel
  induction fuel with
  | zero =>
    intro l hl _
    cases l with
    | nil => exact ⟨[], rfl, rfl⟩
    | cons x xs => exact absurd hl (by simp)
  | succ fuel ih =>
    intro l hl h
    cases l with
    | nil => exact ⟨[], rfl, rfl⟩
    | cons x xs =>
      obtain ⟨y0, hy0⟩ := mapE_ok_of_forall f ((x :: xs).take (k + 1))
        (fun a ha => h a (List.take_subset _ _ ha))
      obtain ⟨out, hout, hlen⟩ := ih (xs.drop k)
        (by simp only [List.length_drop]; simp only [List.length_cons] at hl; omega)
        (fun a ha => h a (List.mem_cons_of_mem x (List.drop_subset _ _ ha)))
      refine ⟨y0 :: out, ?_, ?_⟩
      · show mapE _ ((x :: xs).take (k + 1) :: batchesOfAux k fuel (xs.drop k)) = _
        unfold mapE
        rw [hy0, hout]
      · have hy0len := mapE_ok_length f hy0
        simp only [List.flatten_cons, List.length_append, hlen, hy0len]
        simp only [List.length_take, List.length_drop, List.length_cons]
        omega

theorem batched_mapE_ok (f : α → Except Err β) (k : Nat) (l : List α)
    (h : ∀ x ∈ l, ∃ y, f x = .ok y) :
    ∃ out, mapE (fun b => mapE f b) (batchesOf k l) = .ok out
      ∧ out.flatten.length = l.length :=
  batched_mapE_ok_aux f k l.length l le_rfl h

theorem generate_batch_embeddings_ok (f : String → Except Err EmbVec)
    (texts : List String) (h : ∀ t ∈ texts, ∃ v, f t = .ok v) :
    ∃ vs, generate_batch_embeddings f texts = .ok vs ∧ vs.length = texts.length := by
  obtain ⟨out, hout, hlen⟩ := batched_mapE_ok f (batch_size - 1) texts h
  refine ⟨out.flatten, ?_, hlen⟩
  unfold generate_batch_embeddings
  rw [hout]

theorem generate_batch_embeddings_error (f : String → Except Err EmbVec)
    (texts : List String) (t : String) (e : Err)
    (ht : t ∈ texts) (he : f t = .error e) :
    ∃ e2, generate_batch_embeddings f texts = .error e2 := by
  have hmem : t ∈ (batchesOf (batch_size - 1) texts).flatten := by
    rw [batchesOf_flatten]
    exact ht
  obtain ⟨b, hb, htb⟩ := List.mem_flatten.mp hmem
  obtain ⟨e2, he2⟩ := mapE_error_of_mem f htb he
  obtain ⟨e3, he3⟩ := mapE_error_of_mem (fun b => mapE f b) hb he2
  refine ⟨e3, ?_⟩
  unfold generate_batch_embeddings
  rw [he3]

theorem zip3_third : ∀ (as : List α) (bs : List β) (cs : List γ),
    (as.zip (bs.zip cs)).map (fun t => t.2.2)
      = cs.take (min as.length (min bs.length cs.length))
  | [], _, _ => by simp
  | _ :: _, [], _ => by simp
  | _ :: _, _ :: _, [] => by simp
  | a :: as, b :: bs, c :: cs => by
    simp only [List.zip_cons_cons, List.map_cons, List.length_cons]
    rw [zip3_third as bs cs]
    have hmin : min (as.length + 1) (min (bs.length + 1) (cs.length + 1))
        = min as.length (min bs.length cs.length) + 1 := by omega
    rw [hmin]
    rfl

/-! ## Upload-loop lemmas -/

theorem upload_loop_ok (env : IngestEnv) (req : ArticleProcessingRequest)
    (h : ∀ cid v m, ∃ cnt, env.upload cid v m = .ok cnt) :
    ∀ l : List (ChunkResponse × EmbVec × Nat),
      (upload_loop env req l).result = .ok ()
      ∧ (upload_loop env req l).upserts.map (fun u => u.key) = l.map (fun t => t.2.2)
      ∧ (upload_loop env req l).upserts.map (fun u => u.metadata.chunk_id)
          = l.map (fun t => t.2.2)
      ∧ (upload_loop env req l).chunk_updates.length = l.length := by
  intro l
  induction l with
  | nil => exact ⟨rfl, rfl, rfl, rfl⟩
  | cons hd tl ih =>
    obtain ⟨c, v, cid⟩ := hd
    obtain ⟨cnt, hcnt⟩ := h cid v (chunk_metadata req c cid)
    unfold upload_loop
    rw [hcnt]
    refine ⟨ih.1, ?_, ?_, ?_⟩
    · simp [ih.2.1]
    · simp [ih.2.2.1, chunk_metadata]
    · simp [ih.2.2.2]

theorem upload_loop_update_indep (sp : String → List String)
    (st : List ChunkResponse → Except Err (List Nat))
    (em : String → Except Err EmbVec) (up : Nat → EmbVec → UploadMeta → Except Err Nat)
    (u1 u2 : Nat → Nat → Except Err Bool) (fr : Nat → Nat)
    (req : ArticleProcessingRequest) :
    ∀ l : List (ChunkResponse × EmbVec × Nat),
      (upload_loop ⟨sp, st, em, up, u1, fr⟩ req l).result
        = (upload_loop ⟨sp, st, em, up, u2, fr⟩ req l).result
      ∧ (upload_loop ⟨sp, st, em, up, u1, fr⟩ req l).upserts
        = (upload_loop ⟨sp, st, em, up, u2, fr⟩ req l).upserts := by
  intro l
  induction l with
  | nil => exact ⟨rfl, rfl⟩
  | cons hd tl ih =>
    obtain ⟨c, v, cid⟩ := hd
    unfold upload_loop
    dsimp only
    rcases hu : up cid v (chunk_metadata req c cid) with e | cnt
    · exact ⟨rfl, rfl⟩
    · refine ⟨ih.1, ?_⟩
      simp [ih.2]

/-! ## Article-pipeline characterization lemmas -/

theorem process_article_message_ok_eq (env : IngestEnv) (req : ArticleProcessingRequest)
    (items items2 : List EmbeddingRequest) (vs : List EmbVec)
    (hitems : mapE (fun c => make_embedding_request c.article_id (embedding_text req c))
      (split_article env.split req) = .ok items)
    (hbatch : make_batch_embedding_request items = .ok items2)
    (hvs : generate_batch_embeddings env.embedItem (items2.map (fun it => it.text)) = .ok vs) :
    process_article_message env req
      = upload_loop env req
          ((split_article env.split req).zip (vs.zip (assigned_chunk_ids env req))) := by
  unfold process_article_message
  dsimp only
  rw [hitems]
  dsimp only
  rw [hbatch]
  dsimp only
  rw [hvs]

theorem process_article_message_items_error (env : IngestEnv)
    (req : ArticleProcessingRequest) (e : Err)
    (hitems : mapE (fun c => make_embedding_request c.article_id (embedding_text req c))
      (split_article env.split req) = .error e) :
    process_article_message env req
      = { result := .error e, upserts := [], chunk_updates := [] } := by
  unfold process_article_message
  dsimp only
  rw [hitems]

theorem process_article_message_batch_error (env : IngestEnv)
    (req : ArticleProcessingRequest) (items : List EmbeddingRequest) (e : Err)
    (hitems : mapE (fun c => make_embedding_request c.article_id (embedding_text req c))
      (split_article env.split req) = .ok items)
    (hbatch : make_batch_embedding_request items = .error e) :
    process_article_message env req
      = { result := .error e, upserts := [], chunk_updates := [] } := by
  unfold process_article_message
  dsimp only
  rw [hitems]
  dsimp only
  rw [hbatch]

theorem process_article_message_gbe_error (env : IngestEnv)
    (req : ArticleProcessingRequest) (items items2 : List EmbeddingRequest) (e : Err)
    (hitems : mapE (fun c => make_embedding_request c.article_id (embedding_text req c))
      (split_article env.split req) = .ok items)
    (hbatch : make_batch_embedding_request items = .ok items2)
    (hgbe : generate_batch_embeddings env.embedItem (items2.map (fun it => it.text))
      = .error e) :
    process_article_message env req
      = { result := .error e, upserts := [], chunk_updates := [] } := by
  unfold process_article_message
  dsimp only
  rw [hitems]
  dsimp only
  rw [hbatch]
  dsimp only
  rw [hgbe]

/-! ## Claim theorems: article ingest -/

/-- Claim C1 (amended): when ChunkStore.insertAll raises and the article's
chunk count n lies within the batch-request bounds 1..100 (with the per-chunk
embedding requests passing validation) and the embedder and vector store
succeed, the handler does not abort: it draws exactly n fresh uuid4 ids and
the VectorStore receives exactly n upserts keyed by them, pairwise distinct
(uuid4 draws are injective) and disjoint from the ids of any prior run
(uuid4 freshness). -/
theorem claimC1 (env : IngestEnv) (req : ArticleProcessingRequest) (prior : List Nat)
    (items : List EmbeddingRequest) (e0 : Err)
    (hdb : env.store_chunks (split_article env.split req) = .error e0)
    (hitems : mapE (fun c => make_embedding_request c.article_id (embedding_text req c))
      (split_article env.split req) = .ok items)
    (hn1 : 1 ≤ (split_article env.split req).length)
    (hn2 : (split_article env.split req).length ≤ 100)
    (hemb : ∀ t, ∃ v, env.embedItem t = .ok v)
    (hup : ∀ cid v m, ∃ cnt, env.upload cid v m = .ok cnt)
    (hinj : Function.Injective env.fresh)
    (hfresh : ∀ k, env.fresh k ∉ prior) :
    (process_article_message env req).result = .ok ()
    ∧ (process_article_message env req).upserts.length = (split_article env.split req).length
    ∧ (process_article_message env req).upserts.map (fun u => u.key)
        = (List.range (split_article env.split req).length).map env.fresh
    ∧ ((process_article_message env req).upserts.map (fun u => u.key)).Nodup
    ∧ (∀ kk ∈ (process_article_message env req).upserts.map (fun u => u.key),
        kk ∉ prior) := by
  have hlenitems : items.length = (split_article env.split req).length :=
    mapE_ok_length _ hitems
  have hbatch : make_batch_embedding_request items = .ok items := by
    unfold make_batch_embedding_request
    rw [if_neg (by omega)]
  obtain ⟨vs, hvs, hvslen⟩ := generate_batch_embeddings_ok env.embedItem
    (items.map fun it => it.text) (fun t _ => hemb t)
  have hlv : vs.length = (split_article env.split req).length := by
    rw [hvslen, List.length_map, hlenitems]
  rw [process_article_message_ok_eq env req items items vs hitems hbatch hvs]
  have hids : assigned_chunk_ids env req
      = (List.range (split_article env.split req).length).map env.fresh := by
    unfold assigned_chunk_ids
    rw [hdb]
  have h := upload_loop_ok env req hup
    ((split_article env.split req).zip (vs.zip (assigned_chunk_ids env req)))
  have hkeys : (upload_loop env req
        ((split_article env.split req).zip
          (vs.zip (assigned_chunk_ids env req)))).upserts.map (fun u => u.key)
      = (List.range (split_article env.split req).length).map env.fresh := by
    rw [h.2.1, zip3_third, hids]
    simp [hlv]
  refine ⟨h.1, ?_, hkeys, ?_, ?_⟩
  · have hklen := congrArg List.length hkeys
    simpa using hklen
  · rw [hkeys]
    exact List.Nodup.map hinj (List.nodup_range _)
  · rw [hkeys]
    intro kk hkk
    obtain ⟨i, _, rfl⟩ := List.mem_map.mp hkk
    exact hfresh i

/-- Witness for C1 at concrete inputs: store failure with two chunks, fresh
uuid4 stream 1000, 1001, ..., prior-run ids 0, 1, 2: the handler completes,
exactly the keys 1000 and 1001 are upserted, they are distinct and do not
collide with the prior run. -/
theorem claimC1_witness :
    (process_article_message ingest_env_dbdown sample_req).result = .ok ()
    ∧ (process_article_message ingest_env_dbdown sample_req).upserts.map (fun u => u.key)
        = [1000, 1001]
    ∧ ((process_article_message ingest_env_dbdown sample_req).upserts.map
        (fun u => u.key)).Nodup
    ∧ (1000 ∉ prior_run_ids ∧ 1001 ∉ prior_run_ids) := by
  have h := claimC1 ingest_env_dbdown sample_req prior_run_ids
    [{ article_id := 7, text := "T\n\nPara1." }, { article_id := 7, text := "T\n\nPara2." }]
    Err.dbDown (by decide) (by decide) (by decide) (by decide)
    (fun t => ⟨[1, 2], rfl⟩)
    (fun cid v m => ⟨1, rfl⟩)
    (by intro a b hab; simp [ingest_env_dbdown, ingest_env_ok] at hab; omega)
    (by intro kk; simp [ingest_env_dbdown, ingest_env_ok, prior_run_ids])
  refine ⟨h.1, ?_, h.2.2.2.1, ?_, ?_⟩
  · rw [h.2.2.1]
    decide
  · exact h.2.2.2.2 1000 (by rw [h.2.2.1]; decide)
  · exact h.2.2.2.2 1001 (by rw [h.2.2.1]; decide)

/-- Counterexample for C1 as frozen: the claim is quantified over every
message whose store call fails, but the batch embedding request is validated
with min_items 1 and max_items 100 (models.py BatchEmbeddingRequest), so an
article whose splitter yields 101 segments aborts with a validation error and
zero upserts instead of completing with 101 fresh-keyed upserts. -/
theorem claimC1_counterexample :
    (process_article_message ingest_env_101 sample_req).result = .error .validation
    ∧ (process_article_message ingest_env_101 sample_req).upserts = []
    ∧ (split_article ingest_env_101.split sample_req).length = 101
    ∧ ingest_env_101.store_chunks (split_article ingest_env_101.split sample_req)
        = .error .dbDown := by
  refine ⟨by decide, by decide, by decide, by decide⟩

/-- Claim C5: if the embedder fails on any item of any batch, the batch call
raises; and when the batch call raises, the handler re-raises the very same
error (rejecting the message) with zero VectorStore upserts and zero
back-writes — the upload loop is only ever reached after the whole batch
step has returned. -/
theorem claimC5 :
    (∀ (f : String → Except Err EmbVec) (texts : List String) (t : String) (e : Err),
      t ∈ texts → f t = .error e →
      ∃ e2, generate_batch_embeddings f texts = .error e2)
    ∧ (∀ (env : IngestEnv) (req : ArticleProcessingRequest)
        (items : List EmbeddingRequest) (e : Err),
        mapE (fun c => make_embedding_request c.article_id (embedding_text req c))
          (split_article env.split req) = .ok items →
        make_batch_embedding_request items = .ok items →
        generate_batch_embeddings env.embedItem (items.map (fun it => it.text)) = .error e →
        process_article_message env req
          = { result := .error e, upserts := [], chunk_updates := [] }) :=
  ⟨generate_batch_embeddings_error, fun env req items e h1 h2 h3 =>
    process_article_message_gbe_error env req items items e h1 h2 h3⟩

/-- Witness for C5 at concrete inputs: with a rate-limited embedder the batch
call fails and the whole message outcome is exactly the same error with no
upserts and no back-writes. -/
theorem claimC5_witness :
    (∃ e2, generate_batch_embeddings ingest_env_embedfail.embedItem
      ["T", "U"] = .error e2)
    ∧ process_article_message ingest_env_embedfail sample_req
        = { result := .error .rateLimit, upserts := [], chunk_updates := [] } := by
  constructor
  · exact claimC5.1 ingest_env_embedfail.embedItem ["T", "U"] "T" Err.rateLimit
      (List.mem_cons_self _ _) rfl
  · exact claimC5.2 ingest_env_embedfail sample_req
      [{ article_id := 7, text := "T\n\nPara1." }, { article_id := 7, text := "T\n\nPara2." }]
      Err.rateLimit (by decide) (by decide) (by decide)

/-- Claim C7: every upsert received by the VectorStore is keyed by the id of
its chunk, and carries the same id in its metadata chunk_id field (the join
key); when the assigned chunk ids are pairwise distinct (ChunkStore-generated
primary keys, or injective uuid4 draws on the fallback path) the upserted
vector keys are pairwise distinct within the article's chunk set. -/
theorem claimC7 (env : IngestEnv) (req : ArticleProcessingRequest)
    (items : List EmbeddingRequest)
    (hitems : mapE (fun c => make_embedding_request c.article_id (embedding_text req c))
      (split_article env.split req) = .ok items)
    (hbatch : make_batch_embedding_request items = .ok items)
    (hemb : ∀ t, ∃ v, env.embedItem t = .ok v)
    (hup : ∀ cid v m, ∃ cnt, env.upload cid v m = .ok cnt) :
    (process_article_message env req).upserts.map (fun u => u.key)
      = (assigned_chunk_ids env req).take (split_article env.split req).length
    ∧ (process_article_message env req).upserts.map (fun u => u.metadata.chunk_id)
      = (assigned_chunk_ids env req).take (split_article env.split req).length
    ∧ ((assigned_chunk_ids env req).Nodup →
        ((process_article_message env req).upserts.map (fun u => u.key)).Nodup) := by
  obtain ⟨vs, hvs, hvslen⟩ := generate_batch_embeddings_ok env.embedItem
    (items.map fun it => it.text) (fun t _ => hemb t)
  have hlv : vs.length = (split_article env.split req).length := by
    rw [hvslen, List.length_map, mapE_ok_length _ hitems]
  rw [process_article_message_ok_eq env req items items vs hitems hbatch hvs]
  have h := upload_loop_ok env req hup
    ((split_article env.split req).zip (vs.zip (assigned_chunk_ids env req)))
  have htake : ((split_article env.split req).zip
        (vs.zip (assigned_chunk_ids env req))).map (fun t => t.2.2)
      = (assigned_chunk_ids env req).take (split_article env.split req).length := by
    rw [zip3_third, hlv, List.take_eq_take]
    omega
  refine ⟨?_, ?_, ?_⟩
  · rw [h.2.1, htake]
  · rw [h.2.2.1, htake]
  · intro hnd
    rw [h.2.1, htake]
    exact List.Nodup.sublist (List.take_sublist _ _) hnd

/-- Witness for C7 at concrete inputs: with the ChunkStore assigning ids 0 and
1, the two upserts are keyed 0 and 1, carry the same ids in their metadata,
and the keys are distinct. -/
theorem claimC7_witness :
    (process_article_message ingest_env_ok sample_req).upserts.map (fun u => u.key)
        = [0, 1]
    ∧ (process_article_message ingest_env_ok sample_req).upserts.map
        (fun u => u.metadata.chunk_id) = [0, 1]
    ∧ ((process_article_message ingest_env_ok sample_req).upserts.map
        (fun u => u.key)).Nodup := by
  have h := claimC7 ingest_env_ok sample_req
    [{ article_id := 7, text := "T\n\nPara1." }, { article_id := 7, text := "T\n\nPara2." }]
    (by decide) (by decide)
    (fun t => ⟨[1, 2], rfl⟩) (fun cid v m => ⟨1, rfl⟩)
  refine ⟨?_, ?_, h.2.2 (by decide)⟩
  · rw [h.1]
    decide
  · rw [h.2.1]
    decide

/-- Claim C9: a failing ChunkStore back-write (update_chunk_pinecone_id
raising) is swallowed by the handler: the message result and the upserts the
VectorStore receives are independent of the back-write oracle, and with the
other collaborators succeeding the handler completes normally, attempting
exactly one back-write per upserted chunk. -/
theorem claimC9 :
    (∀ (env : IngestEnv) (u1 u2 : Nat → Nat → Except Err Bool)
       (req : ArticleProcessingRequest),
      (process_article_message { env with update_chunk := u1 } req).result
        = (process_article_message { env with update_chunk := u2 } req).result
      ∧ (process_article_message { env with update_chunk := u1 } req).upserts
        = (process_article_message { env with update_chunk := u2 } req).upserts)
    ∧ (∀ (env : IngestEnv) (req : ArticleProcessingRequest)
        (items : List EmbeddingRequest),
        mapE (fun c => make_embedding_request c.article_id (embedding_text req c))
          (split_article env.split req) = .ok items →
        make_batch_embedding_request items = .ok items →
        (∀ t, ∃ v, env.embedItem t = .ok v) →
        (∀ cid v m, ∃ cnt, env.upload cid v m = .ok cnt) →
        (process_article_message env req).result = .ok ()
        ∧ (process_article_message env req).chunk_updates.length
            = (process_article_message env req).upserts.length) := by
  constructor
  · intro env u1 u2 req
    rcases hA : mapE (fun c => make_embedding_request c.article_id (embedding_text req c))
        (split_article env.split req) with e | items
    · rw [process_article_message_items_error { env with update_chunk := u1 } req e hA,
        process_article_message_items_error { env with update_chunk := u2 } req e hA]
      exact ⟨rfl, rfl⟩
    · rcases hB : make_batch_embedding_request items with e | items2
      · rw [process_article_message_batch_error { env with update_chunk := u1 } req items e hA hB,
          process_article_message_batch_error { env with update_chunk := u2 } req items e hA hB]
        exact ⟨rfl, rfl⟩
      · rcases hC : generate_batch_embeddings env.embedItem (items2.map fun it => it.text)
            with e | embs
        · rw [process_article_message_gbe_error { env with update_chunk := u1 } req
              items items2 e hA hB hC,
            process_article_message_gbe_error { env with update_chunk := u2 } req
              items items2 e hA hB hC]
          exact ⟨rfl, rfl⟩
        · rw [process_article_message_ok_eq { env with update_chunk := u1 } req
              items items2 embs hA hB hC,
            process_article_message_ok_eq { env with update_chunk := u2 } req
              items items2 embs hA hB hC]
          exact upload_loop_update_indep env.split env.store_chunks env.embedItem
            env.upload u1 u2 env.fresh req _
  · intro env req items hitems hbatch hemb hup
    obtain ⟨vs, hvs, hvslen⟩ := generate_batch_embeddings_ok env.embedItem
      (items.map fun it => it.text) (fun t _ => hemb t)
    rw [process_article_message_ok_eq env req items items vs hitems hbatch hvs]
    have h := upload_loop_ok env req hup
      ((split_article env.split req).zip (vs.zip (assigned_chunk_ids env req)))
    refine ⟨h.1, ?_⟩
    have h1 := congrArg List.length h.2.1
    simp only [List.length_map] at h1
    rw [h.2.2.2, h1]

/-- Witness for C9 at concrete inputs: with every back-write failing, the
message result and the upserts coincide with the all-success run, the handler
completes, and both chunks got an attempted back-write. -/
theorem claimC9_witness :
    (process_article_message ingest_env_updatefail sample_req).result
      = (process_article_message ingest_env_ok sample_req).result
    ∧ (process_article_message ingest_env_updatefail sample_req).upserts
      = (process_article_message ingest_env_ok sample_req).upserts
    ∧ (process_article_message ingest_env_updatefail sample_req).result = .ok ()
    ∧ (process_article_message ingest_env_updatefail sample_req).chunk_updates.length
      = (process_article_message ingest_env_updatefail sample_req).upserts.length := by
  have h1 := claimC9.1 ingest_env_ok (fun _ _ => .error .dbDown) (fun _ _ => .ok true)
    sample_req
  have h2 := claimC9.2 ingest_env_updatefail sample_req
    [{ article_id := 7, text := "T\n\nPara1." }, { article_id := 7, text := "T\n\nPara2." }]
    (by decide) (by decide)
    (fun t => ⟨[1, 2], rfl⟩) (fun cid v m => ⟨1, rfl⟩)
  exact ⟨h1.1, h1.2, h2.1, h2.2⟩

/-! ## Claim theorems: retry policy -/

/-- Counterexample for C6 as frozen: the claim says every Embedder and
VectorStore call is wrapped with a retry that fires only on
transient-classified errors and never on non-transient ones.  But the
vectordb retry (no retry= predicate) retries every exception: an action whose
only failure is a validation error on attempt 0 succeeds after being retried.
And the embedder calls carry no retry at all: an action failing transiently
on attempt 0 that would succeed on attempt 1 fails outright. -/
theorem claimC6_counterexample :
    vectordb_retry_call c6_vec_action = .ok 42
    ∧ spec_transient Err.validation = false
    ∧ embedder_call c6_embed_action = .error .rateLimit
    ∧ c6_embed_action 1 = .ok 7
    ∧ spec_transient Err.rateLimit = true :=
  ⟨rfl, rfl, rfl, rfl, rfl⟩

/-- Claim C6 (amended): the VectorStore calls (upload_embedding and
search_similar) are wrapped with a tenacity retry of bounded attempt count
settings.max_retries (default 3) and exponential backoff
(wait_exponential multiplier 1, min 2, max 8), re-raising the final error
unchanged — but with no exception filter, so every error is retried,
transient or not; the Embedder calls are not wrapped at all and make exactly
one attempt.  The first conjunct characterizes the wrapped call exactly:
attempt 0, then attempt 1, then attempt 2, whose error (if any) is returned
unchanged. -/
theorem claimC6_amended :
    (∀ (α : Type) (action : Nat → Except Err α),
      vectordb_retry_call action
        = (match action 0 with
           | .ok a => .ok a
           | .error _ =>
             match action 1 with
             | .ok a => .ok a
             | .error _ => action 2))
    ∧ (∀ (α : Type) (action : Nat → Except Err α), embedder_call action = action 0)
    ∧ max_retries = 3 := by
  refine ⟨?_, fun α action => rfl, rfl⟩
  intro α action
  show retryAttempts (fun _ => true) action 0 2 = _
  rw [retryAttempts]
  rcases h0 : action 0 with e0 | a0
  · dsimp only
    rw [retryAttempts]
    rcases h1 : action 1 with e1 | a1
    · dsimp only
      rw [retryAttempts]
      rcases h2 : action 2 with e2 | a2
      · rfl
      · rfl
    · rfl
  · rfl
